import Mathlib

/-!
Verification development for the IMAP client wrapper
(src/email_client/network/imap_client.py) of the gmail-client-desktop
repository.  The Python code is shallowly embedded: pure helpers become
Lean functions over String / List Char, the connection life-cycle becomes
explicit state passing with an event trace, stdlib calls whose behaviour
the claims do not depend on (MIME header decoding, address parsing, date
parsing) are abstracted as function parameters gathered in MailLib, and
fallible code returns Option / Except.
-/

namespace ImapSpec

/-- Error taxonomy of imap_client.py (ImapConnectionError,
ImapAuthenticationError, ImapOperationError).  Message strings are elided:
the claims only depend on the error kind. -/
inductive ImapErr where
  | connectionError
  | authenticationError
  | operationError
deriving DecidableEq, Repr

/-- Modelled from the spec: token bundle (email_client.auth.oauth.TokenBundle
is not under src/).  Fields used by imap_client.py: access_token (string)
and expires_at (optional timestamp).  Timestamps are modelled as integer
seconds. -/
structure TokenBundle where
  access_token : String
  expires_at : Option Int
deriving DecidableEq, Repr

/-- Modelled from the spec: account identity (email_client.models.EmailAccount
is not under src/).  Fields used by imap_client.py: id, email_address,
imap_host. -/
structure EmailAccount where
  id : Option Nat
  email_address : String
  imap_host : String
deriving DecidableEq, Repr

/-- Modelled from the spec: folder record (email_client.models.Folder is not
under src/).  Fields are exactly those of the constructor call in
_parse_folder_list_item. -/
structure Folder where
  account_id : Nat
  name : String
  server_path : String
  is_system_folder : Bool
  unread_count : Nat
deriving DecidableEq, Repr

/-- Modelled from the spec: message record (email_client.models.EmailMessage
is not under src/).  Fields are exactly those of the constructor calls in
_fetch_message_headers_batch and _fetch_message_headers.  Timestamps are
integer seconds; the raw flag set is modelled as a duplicate-free list. -/
structure EmailMessage where
  account_id : Nat
  folder_id : Nat
  uid_on_server : Nat
  sender : String
  recipients : List String
  subject : String
  preview_text : String
  sent_at : Option Int
  received_at : Option Int
  is_read : Bool
  has_attachments : Bool
  flags : List String
deriving DecidableEq, Repr

/-! ### Python string helpers -/

/-- Whitespace characters removed by Python str.strip() (ASCII part; the
Unicode space classes do not affect any statement below because both sides
of every theorem use the same model). -/
def pyIsSpace (c : Char) : Bool :=
  c = ' ' || c = '\t' || c = '\n' || c = '\x0d' || c = '\x0b' || c = '\x0c'

/-- Python str.strip(): drop leading and trailing whitespace. -/
def pyStripChars (s : List Char) : List Char :=
  ((s.dropWhile pyIsSpace).reverse.dropWhile pyIsSpace).reverse

/-- Python str.strip() at String level. -/
def pyStrip (s : String) : String :=
  String.mk (pyStripChars s.data)

/-- Numeric value of a run of ASCII digits. -/
def natOfDigits (ds : List Char) : Nat :=
  ds.foldl (fun a c => a * 10 + (c.toNat - 48)) 0

/-- Python int(str) restricted to the digit-string tokens produced by an
IMAP SEARCH response (the only inputs the client feeds it); returns none
when the call would raise ValueError. -/
def pyInt? (s : String) : Option Nat :=
  if s.data.isEmpty then none
  else if s.data.all Char.isDigit then some (natOfDigits s.data)
  else none

/-- Total version of pyInt? used when stating list-level equalities. -/
def pyIntD (s : String) : Nat :=
  (pyInt? s).getD 0

/-- Whether needle is a prefix of hay. -/
def prefixAt : List Char → List Char → Bool
  | [], _ => true
  | _ :: _, [] => false
  | n :: ns, h :: hs => (n = h) && prefixAt ns hs

/-- Python str.split with a one-character separator, over character lists;
acc is the segment being accumulated. -/
def pySplit1Chars (sep : Char) : List Char → List Char → List (List Char)
  | [], acc => [acc]
  | c :: r, acc =>
    if c = sep then acc :: pySplit1Chars sep r []
    else pySplit1Chars sep r (acc ++ [c])

/-- Python s.split(sep) for a one-character separator (the only split the
client performs on the XOAUTH2 payload). -/
def pySplit1 (s : String) (sep : Char) : List String :=
  (pySplit1Chars sep s.data []).map (fun l => String.mk l)

/-- Python substring test (needle in haystack) over character lists. -/
def strContainsChars (hay needle : List Char) : Bool :=
  if prefixAt needle hay then true
  else
    match hay with
    | [] => false
    | _ :: hs => strContainsChars hs needle

/-- Python substring test at String level. -/
def strContains (hay needle : String) : Bool :=
  strContainsChars hay.data needle.data

/-- Python str.lower() (ASCII part, the only part the checked substrings
exercise). -/
def strLower (s : String) : String :=
  String.mk (s.data.map Char.toLower)

/-- Python str.upper() (ASCII part, the only part the checked substrings
exercise). -/
def strUpper (s : String) : String :=
  String.mk (s.data.map Char.toUpper)

/-! ### XOAUTH2 credential builder (ImapClient._build_xoauth2_bytes) -/

/-- ImapClient._build_xoauth2_bytes.  Returns the raw (not base64-encoded)
SASL payload string; the byte output of the Python function is exactly the
UTF-8 encoding of this string.  now is the current clock reading in the
same unit as TokenBundle.expires_at. -/
def build_xoauth2_bytes (token_bundle : Option TokenBundle)
    (email_address : String) (now : Int) : Except ImapErr String :=
  match token_bundle with
  | none => .error .authenticationError
  | some tb =>
    if tb.access_token = "" then .error .authenticationError
    else
      match tb.expires_at with
      | some t =>
        if t - now ≤ 0 then .error .authenticationError
        else .ok ("user=" ++ pyStrip email_address ++ "\x01auth=Bearer "
                    ++ tb.access_token ++ "\x01\x01")
      | none =>
        .ok ("user=" ++ pyStrip email_address ++ "\x01auth=Bearer "
               ++ tb.access_token ++ "\x01\x01")

/-! ### Folder-name quoting (ImapClient._quote_folder_name) -/

/-- Python folder_path.startswith(double quote). -/
def startsWithQuote (s : List Char) : Bool :=
  match s with
  | [] => false
  | c :: _ => c = '"'

/-- Python folder_path.endswith(double quote). -/
def endsWithQuote (s : List Char) : Bool :=
  match s.getLast? with
  | none => false
  | some c => c = '"'

/-- Python folder_path.replace with each double quote replaced by
backslash double-quote. -/
def escQuotes : List Char → List Char
  | [] => []
  | c :: rest =>
    if c = '"' then '\\' :: '"' :: escQuotes rest
    else c :: escQuotes rest

/-- The needs_quoting condition of _quote_folder_name, with the Python
operator precedence kept: the slash clause alone carries the extra
"does not start with a quote" conjunct. -/
def needsQuoting (s : List Char) : Bool :=
  s.contains ' ' || s.contains '[' || s.contains ']'
    || (s.contains '/' && !startsWithQuote s)

/-- ImapClient._quote_folder_name over character lists. -/
def quoteFolderChars (s : List Char) : List Char :=
  if s = [] then s
  else if startsWithQuote s && endsWithQuote s then s
  else if needsQuoting s then '"' :: (escQuotes s ++ ['"'])
  else s

/-- ImapClient._quote_folder_name at String level. -/
def quote_folder_name (s : String) : String :=
  String.mk (quoteFolderChars s.data)

/-! ### Flag parsing (ImapClient._parse_flags) -/

/-- One re.findall pass of the pattern backslash-then-letters: at each
backslash take the maximal nonempty run of ASCII letters, otherwise
advance one character.  Structural recursion on a fuel count: every step
consumes at least one character, so fuel equal to the input length is
always sufficient. -/
def flagMatchesFuel : Nat → List Char → List (List Char)
  | 0, _ => []
  | _ + 1, [] => []
  | n + 1, c :: rest =>
    if c = '\\' then
      let run := rest.takeWhile Char.isAlpha
      if run.isEmpty then flagMatchesFuel n rest
      else run :: flagMatchesFuel n (rest.drop run.length)
    else flagMatchesFuel n rest

/-- The flag scanner at full fuel. -/
def flagMatches (l : List Char) : List (List Char) :=
  flagMatchesFuel l.length l

/-- ImapClient._parse_flags: the Python set of backslash-prefixed flag
tokens, modelled as a duplicate-free list (only membership matters). -/
def parse_flags (s : String) : List String :=
  ((flagMatches s.data).map (fun r => String.mk ('\\' :: r))).dedup

/-- Shape of every string _parse_flags can produce: a single backslash
followed by one or more ASCII letters. -/
def flagShape (f : String) : Bool :=
  match f.data with
  | '\\' :: r => !r.isEmpty && r.all Char.isAlpha
  | _ => false

/-! ### UID extraction (re.search of UID, whitespace, digits) -/

/-- Attempt to match one-or-more whitespace then one-or-more digits at the
head of the input, returning the digit group value. -/
def matchSpacesDigits (s : List Char) : Option Nat :=
  let ws := s.takeWhile pyIsSpace
  if ws.isEmpty then none
  else
    let rest := s.drop ws.length
    let ds := rest.takeWhile Char.isDigit
    if ds.isEmpty then none
    else some (natOfDigits ds)

/-- re.search for the literal UID, whitespace, then a digit group: the
scanner tries each start position left to right. -/
def findUidChars : List Char → Option Nat
  | [] => none
  | c :: rest =>
    if c = 'U' then
      match rest with
      | 'I' :: 'D' :: rest2 =>
        match matchSpacesDigits rest2 with
        | some n => some n
        | none => findUidChars rest
      | _ => findUidChars rest
    else findUidChars rest

/-- UID extraction from a fetch-response metadata string. -/
def findUid (s : String) : Option Nat :=
  findUidChars s.data

/-! ### Abstracted Python stdlib mail helpers

The claims never depend on the internals of email.header.decode_header,
email.utils.parseaddr or parsedate_tz; they are abstracted as arbitrary
functions so every theorem below holds for all of their behaviours. -/

/-- Stdlib mail-handling functions used identically by both fetch paths.
decodeHeaderRaw returns none when the Python call would raise. -/
structure MailLib where
  decodeHeaderRaw : String → Option String
  parseaddr : String → String × String
  parsedate : String → Option Int

/-- ImapClient._decode_header: decode with fallback to the raw input when
decoding raises. -/
def decode_header_be (lib : MailLib) (h : String) : String :=
  (lib.decodeHeaderRaw h).getD h

/-- ImapClient._parse_date: empty or missing date strings give none, and
failures of the stdlib parse give none. -/
def parse_date (lib : MailLib) (o : Option String) : Option Int :=
  match o with
  | none => none
  | some s => if s = "" then none else lib.parsedate s

/-- Header fields of one message as email.message_from_bytes exposes them
to the client code (the only accesses are msg.get of Subject, From, To,
Date and Content-Type, plus the Content-Disposition membership test). -/
structure MailMsg where
  subject : String
  from_hdr : String
  to_hdr : String
  date_hdr : Option String
  has_content_disposition : Bool
  content_type : String
deriving DecidableEq, Repr

/-- Per-message extraction of the batch path
(ImapClient._fetch_message_headers_batch, loop body): the UID is parsed
out of the response metadata, and an item whose metadata has no UID is
skipped. -/
def extract_batch_item (lib : MailLib) (accountId folderId : Nat)
    (item : String × MailMsg) : Option EmailMessage :=
  let flags_str := item.1
  match findUid flags_str with
  | none => none
  | some uid =>
    let flags := parse_flags flags_str
    let m := item.2
    let subject := decode_header_be lib m.subject
    let sender := decode_header_be lib m.from_hdr
    let recipients_str := decode_header_be lib m.to_hdr
    let sender_email :=
      if (lib.parseaddr sender).2 = "" then sender else (lib.parseaddr sender).2
    let recipients :=
      if recipients_str = "" then []
      else (pySplit1 recipients_str ',').filterMap (fun a =>
        if (lib.parseaddr (pyStrip a)).2 = "" then none
        else some (lib.parseaddr (pyStrip a)).2)
    let sent_at := parse_date lib m.date_hdr
    some { account_id := accountId
           folder_id := folderId
           uid_on_server := uid
           sender := sender_email
           recipients := recipients
           subject := subject
           preview_text := ""
           sent_at := sent_at
           received_at := sent_at
           is_read := decide ("\\Seen" ∈ flags)
           has_attachments :=
             m.has_content_disposition
               || strContains (strLower m.content_type) "attachment"
           flags := flags }

/-- Server response to a single-UID fetch, as seen after the status and
shape checks of _fetch_message_headers: failure covers a non-OK status,
empty data, a non-tuple item and non-bytes header data. -/
inductive UidFetchResp where
  | failure
  | item (meta : String) (msg : MailMsg)
deriving DecidableEq, Repr

/-- ImapClient._fetch_message_headers: single-message fetch.  The UID of
the produced record is the uid argument, not anything parsed from the
response metadata. -/
def fetch_message_headers (lib : MailLib) (accountId folderId : Nat)
    (uid : Nat) (resp : UidFetchResp) : Option EmailMessage :=
  match resp with
  | .failure => none
  | .item meta m =>
    let flags := parse_flags meta
    let subject := decode_header_be lib m.subject
    let sender := decode_header_be lib m.from_hdr
    let recipients_str := decode_header_be lib m.to_hdr
    let sender_email :=
      if (lib.parseaddr sender).2 = "" then sender else (lib.parseaddr sender).2
    let recipients :=
      if recipients_str = "" then []
      else (pySplit1 recipients_str ',').filterMap (fun a =>
        if (lib.parseaddr (pyStrip a)).2 = "" then none
        else some (lib.parseaddr (pyStrip a)).2)
    let sent_at := parse_date lib m.date_hdr
    some { account_id := accountId
           folder_id := folderId
           uid_on_server := uid
           sender := sender_email
           recipients := recipients
           subject := subject
           preview_text := ""
           sent_at := sent_at
           received_at := sent_at
           is_read := decide ("\\Seen" ∈ flags)
           has_attachments :=
             m.has_content_disposition
               || strContains (strLower m.content_type) "attachment"
           flags := flags }

/-- ImapClient._fallback_individual_fetch: one fetch per UID token; a UID
token that fails int() conversion, or a message whose fetch or parse
fails, is skipped and never aborts the loop. -/
def fallback_individual_fetch (lib : MailLib) (accountId folderId : Nat)
    (server : Nat → UidFetchResp) (uid_list : List String) :
    List EmailMessage :=
  uid_list.filterMap (fun us =>
    match pyInt? us with
    | none => none
    | some uid => fetch_message_headers lib accountId folderId uid (server uid))

/-- Outcome of the combined batch fetch call as the client sees it:
a well-formed list-of-tuples response, a non-OK status, or an exception
raised while issuing or shape-parsing the response. -/
inductive BatchData where
  | items (l : List (String × MailMsg))
  | badStatus
  | exn
deriving DecidableEq, Repr

/-- ImapClient._fetch_message_headers_batch: parse a well-formed batch
response item by item, or fall back to per-UID fetches when the batch
call returns a non-OK status or raises. -/
def fetch_message_headers_batch (lib : MailLib) (accountId folderId : Nat)
    (uid_list : List String) (bd : BatchData)
    (server : Nat → UidFetchResp) : List EmailMessage :=
  if uid_list.isEmpty then []
  else
    match bd with
    | .badStatus => fallback_individual_fetch lib accountId folderId server uid_list
    | .exn => fallback_individual_fetch lib accountId folderId server uid_list
    | .items l => l.filterMap (extract_batch_item lib accountId folderId)

/-- Python tail slice uid_list with negative index -limit: the whole list
when limit is zero, else the last limit elements. -/
def pyTailSlice (l : List String) (limit : Nat) : List String :=
  if limit = 0 then l else l.drop (l.length - limit)

/-- ImapClient.fetch_headers after a successful SELECT and SEARCH:
uids is the ascending SEARCH token list, bd gives the batch response the
server produces for the requested UID sublist, server gives the single-UID
responses used by the fallback.  Returns the UID tokens actually requested
from the server together with the message list handed to the caller. -/
def fetch_headers_model (lib : MailLib) (accountId folderId : Nat)
    (uids : List String) (limit : Nat)
    (bd : List String → BatchData) (server : Nat → UidFetchResp) :
    List String × List EmailMessage :=
  if uids.isEmpty then ([], [])
  else
    let uid_list := if uids.length > limit then pyTailSlice uids limit else uids
    let msgs := fetch_message_headers_batch lib accountId folderId uid_list
        (bd uid_list) server
    (uid_list, msgs.reverse)

/-! ### Folder-list parsing (ImapClient._parse_folder_list_item) -/

/-- Scanner for quoted substrings: outside a quote pair (acc none) a
double quote opens a match; inside (acc holds the content so far) a double
quote closes and emits the match; an unclosed trailing quote emits
nothing. -/
def findQuotedAux : List Char → Option (List Char) → List (List Char)
  | [], _ => []
  | c :: r, none =>
    if c = '"' then findQuotedAux r (some [])
    else findQuotedAux r none
  | c :: r, some acc =>
    if c = '"' then acc :: findQuotedAux r none
    else findQuotedAux r (some (acc ++ [c]))

/-- re.findall of quoted substrings: each match is the text between a
quote pair, scanning left to right without overlap. -/
def findQuoted (l : List Char) : List (List Char) :=
  findQuotedAux l none

/-- ImapClient._parse_folder_list_item: the server path is the rightmost
quoted token, put through best-effort header decoding (dec none models a
raised decode, in which case the raw token is kept); the display name is
the last slash-separated segment; system folders are detected by
case-insensitive substring tests.  Returns none when the line holds no
quoted string. -/
def parse_folder_list_item (dec : String → Option String)
    (accountId : Nat) (line : String) : Option Folder :=
  match (findQuoted line.data).getLast? with
  | none => none
  | some q =>
    let raw := String.mk q
    let server_path := (dec raw).getD raw
    let name :=
      if server_path.data.contains '/' then
        ((pySplit1 server_path '/').getLast?).getD ""
      else server_path
    let path_upper := strUpper server_path
    let is_system :=
      path_upper = "INBOX"
        || strContains path_upper "SENT"
        || strContains path_upper "DRAFT"
        || strContains path_upper "TRASH"
        || strContains path_upper "DELETED"
    some { account_id := accountId
           name := name
           server_path := server_path
           is_system_folder := is_system
           unread_count := 0 }

/-- ImapClient.list_folders after a successful LIST command: every line is
parsed independently and lines that fail to parse are dropped. -/
def list_folders_model (dec : String → Option String) (accountId : Nat)
    (lines : List String) : List Folder :=
  lines.filterMap (parse_folder_list_item dec accountId)

/-! ### Connection state machine (ImapClient._connect and close) -/

/-- Mutable session state of an ImapClient instance: connectionOpen models
self.connection being non-None and authenticated models
self._authenticated. -/
structure ImapSession where
  account : EmailAccount
  token_bundle : Option TokenBundle
  password : Option String
  connectionOpen : Bool
  authenticated : Bool
deriving DecidableEq, Repr

/-- Introspection-endpoint JSON body fields the client reads; expires_in
carries the Python default of zero when the key is absent. -/
structure TokenInfo where
  errorKey : Option String
  email_field : String
  scope : List String
  expires_in : Int
deriving DecidableEq, Repr

/-- Outcome of the pre-authentication token-introspection request:
a parsed JSON response, a transport failure (requests.RequestException) or
any other exception while obtaining or reading the body. -/
inductive IntrospectResult where
  | response (info : TokenInfo)
  | netError
  | malformed
deriving DecidableEq, Repr

/-- Outcome of an authentication exchange: OK status, non-OK status, or an
IMAP protocol exception raised by imaplib. -/
inductive SaslOutcome where
  | okResult
  | badStatus
  | imapProtoError
deriving DecidableEq, Repr

/-- Environment of one _connect call: whether the TLS connection opens,
what the introspection endpoint answers, and how the XOAUTH2 or LOGIN
exchange ends. -/
structure ConnEnv where
  tlsOk : Bool
  introspect : IntrospectResult
  sasl : SaslOutcome
  login : SaslOutcome
deriving DecidableEq, Repr

/-- Network actions _connect can perform, in the order it performs them. -/
inductive NetEvent where
  | tlsConnect
  | introspectCall
  | saslExchange
  | loginCall
deriving DecidableEq, Repr

/-- Scope the introspection check requires. -/
def imapScope : String := "https://mail.google.com/"

/-- Whether the introspection response aborts authentication: an error
key, a missing IMAP scope, or a non-positive expires_in. -/
def introAborts : IntrospectResult → Bool
  | .response info =>
    info.errorKey.isSome
      || !(decide (imapScope ∈ info.scope))
      || decide (info.expires_in ≤ 0)
  | .netError => false
  | .malformed => false

/-- ImapClient._connect: returns the network events issued in order
together with the resulting session or error.  Follows the source order:
no-op when already authenticated with an open connection, TLS connect,
then, on the OAuth branch, the empty-token check, the introspection call,
the local expiry check inside _build_xoauth2_bytes and finally the SASL
exchange; on the password branch a LOGIN call; otherwise an immediate
authentication error. -/
def connectModel (env : ConnEnv) (st : ImapSession) (now : Int) :
    List NetEvent × Except ImapErr ImapSession :=
  if st.connectionOpen && st.authenticated then ([], .ok st)
  else if !env.tlsOk then ([.tlsConnect], .error .connectionError)
  else
    let st1 := { st with connectionOpen := true }
    match st.token_bundle with
    | some tb =>
      if tb.access_token = "" then
        ([.tlsConnect], .error .authenticationError)
      else if introAborts env.introspect then
        ([.tlsConnect, .introspectCall], .error .authenticationError)
      else
        match build_xoauth2_bytes (some tb) st.account.email_address now with
        | .error e => ([.tlsConnect, .introspectCall], .error e)
        | .ok _ =>
          match env.sasl with
          | .okResult =>
            ([.tlsConnect, .introspectCall, .saslExchange],
             .ok { st1 with authenticated := true })
          | .badStatus =>
            ([.tlsConnect, .introspectCall, .saslExchange],
             .error .authenticationError)
          | .imapProtoError =>
            ([.tlsConnect, .introspectCall, .saslExchange],
             .error .authenticationError)
    | none =>
      match st.password with
      | some _ =>
        match env.login with
        | .okResult =>
          ([.tlsConnect, .loginCall], .ok { st1 with authenticated := true })
        | .badStatus =>
          ([.tlsConnect, .loginCall], .error .authenticationError)
        | .imapProtoError =>
          ([.tlsConnect, .loginCall], .error .connectionError)
      | none => ([.tlsConnect], .error .authenticationError)

/-- ImapClient.close: logout is attempted only when the connection is open
and authenticated; an exception raised by logout (logoutRaises) is
swallowed, and the finally block clears the connection state of that
branch.  In every other starting state the method does nothing. -/
def closeModel (_logoutRaises : Bool) (s : ImapSession) : ImapSession :=
  if s.connectionOpen && s.authenticated then
    { s with connectionOpen := false, authenticated := false }
  else s

/-! ### Message move (ImapClient.move_message) -/

/-- The four IMAP commands move_message issues, in program order. -/
inductive MoveStep where
  | selectSrc
  | copyToDest
  | storeDeleted
  | expunge
deriving DecidableEq, Repr

/-- Whether each command of a move returns an OK status. -/
structure MoveEnv where
  selectOk : Bool
  copyOk : Bool
  storeOk : Bool
  expungeOk : Bool
deriving DecidableEq, Repr

/-- The full command sequence of a successful move. -/
def moveSteps : List MoveStep :=
  [.selectSrc, .copyToDest, .storeDeleted, .expunge]

/-- ImapClient.move_message over an abstract server state: each attempted
command is recorded; a command with OK status applies its server-side
effect; the first non-OK status raises an operation error at once, with no
further command and no compensating command.  Returns the commands
attempted, the final server state and the error if any. -/
def move_message {σ : Type} (apply : MoveStep → σ → σ) (env : MoveEnv)
    (s : σ) : List MoveStep × σ × Option ImapErr :=
  if !env.selectOk then ([.selectSrc], s, some .operationError)
  else
    let s1 := apply .selectSrc s
    if !env.copyOk then ([.selectSrc, .copyToDest], s1, some .operationError)
    else
      let s2 := apply .copyToDest s1
      if !env.storeOk then
        ([.selectSrc, .copyToDest, .storeDeleted], s2, some .operationError)
      else
        let s3 := apply .storeDeleted s2
        if !env.expungeOk then (moveSteps, s3, some .operationError)
        else (moveSteps, apply .expunge s3, none)

/-! ## Theorems -/

/-- Rebuilding a string from its character list is the identity. -/
theorem string_mk_data (s : String) : String.mk s.data = s := rfl

/-- C1: for every account email and non-empty access token whose expiry is
absent or not yet elapsed, the XOAUTH2 credential builder returns exactly
the raw payload string user= email, one separator, auth=Bearer token, two
separators — whose UTF-8 bytes are the function output, with no base64
step — and for email a@b.com with token T123 the output is exactly the
expected payload, which splits on the separator into 4 segments. -/
theorem c1_xoauth2_payload (e tok : String) (ex : Option Int) (now : Int)
    (htok : tok ≠ "")
    (hexp : ex = none ∨ ∃ t, ex = some t ∧ now < t) :
    build_xoauth2_bytes (some ⟨tok, ex⟩) e now =
      .ok ("user=" ++ pyStrip e ++ "\x01auth=Bearer " ++ tok ++ "\x01\x01")
    ∧ build_xoauth2_bytes (some ⟨"T123", none⟩) "a@b.com" 0 =
        .ok "user=a@b.com\x01auth=Bearer T123\x01\x01"
    ∧ (pySplit1 "user=a@b.com\x01auth=Bearer T123\x01\x01" '\x01').length = 4 := by
  refine ⟨?_, rfl, by decide⟩
  rcases hexp with h | ⟨t, ht, hlt⟩
  · subst h
    simp [build_xoauth2_bytes, htok]
  · subst ht
    simp only [build_xoauth2_bytes, htok, if_neg, if_false]
    have hcmp : ¬(t - now ≤ 0) := by omega
    simp [htok, hcmp]

/-- C1 witness: the theorem applied at a concrete email, token and clock. -/
theorem c1_xoauth2_payload_witness :
    build_xoauth2_bytes (some ⟨"T123", some 50⟩) " a@b.com " 7 =
      .ok ("user=" ++ pyStrip " a@b.com " ++ "\x01auth=Bearer "
             ++ "T123" ++ "\x01\x01") :=
  (c1_xoauth2_payload " a@b.com " "T123" (some 50) 7 (by decide)
    (Or.inr ⟨50, rfl, by omega⟩)).1

/-- C4: move_message issues select, copy, store-deleted, expunge in that
order; the first non-OK status raises an operation error at once, issues
no further command and no compensating command, so the server state is
exactly the fold of the commands that succeeded. -/
theorem c4_move_sequence {σ : Type} (apply : MoveStep → σ → σ)
    (env : MoveEnv) (s : σ) :
    (env.selectOk = false →
      move_message apply env s = ([.selectSrc], s, some .operationError))
    ∧ (env.selectOk = true → env.copyOk = false →
      move_message apply env s =
        ([.selectSrc, .copyToDest], apply .selectSrc s, some .operationError))
    ∧ (env.selectOk = true → env.copyOk = true → env.storeOk = false →
      move_message apply env s =
        ([.selectSrc, .copyToDest, .storeDeleted],
         apply .copyToDest (apply .selectSrc s), some .operationError))
    ∧ (env.selectOk = true → env.copyOk = true → env.storeOk = true →
        env.expungeOk = false →
      move_message apply env s =
        (moveSteps, apply .storeDeleted (apply .copyToDest (apply .selectSrc s)),
         some .operationError))
    ∧ (env.selectOk = true → env.copyOk = true → env.storeOk = true →
        env.expungeOk = true →
      move_message apply env s =
        (moveSteps,
         apply .expunge (apply .storeDeleted (apply .copyToDest (apply .selectSrc s))),
         none)) := by
  rcases env with ⟨b1, b2, b3, b4⟩
  cases b1 <;> cases b2 <;> cases b3 <;> cases b4 <;>
    simp [move_message, moveSteps]

/-- C4 witness: a move whose store step fails stops after three commands
with an operation error and the state of the two successful commands. -/
theorem c4_move_sequence_witness :
    move_message (fun _ n => n + 1) ⟨true, true, false, true⟩ (0 : Nat) =
      ([.selectSrc, .copyToDest, .storeDeleted], 2, some .operationError) :=
  (c4_move_sequence (fun _ n => n + 1) ⟨true, true, false, true⟩ 0).2.2.1
    rfl rfl rfl

/-- On an expired bundle the credential builder fails with an
authentication error whatever the email and token are. -/
theorem build_xoauth2_expired (tb : TokenBundle) (e : String) (t now : Int)
    (hexp : tb.expires_at = some t) (ht : t < now) :
    build_xoauth2_bytes (some tb) e now = .error .authenticationError := by
  unfold build_xoauth2_bytes
  by_cases ha : tb.access_token = ""
  · simp [ha]
  · simp [ha, hexp, show t - now ≤ 0 by omega]

/-- On a non-empty token whose expiry is absent or in the future the
credential builder succeeds. -/
theorem build_xoauth2_ok (tb : TokenBundle) (e : String) (now : Int)
    (htok : tb.access_token ≠ "")
    (hexp : tb.expires_at = none ∨ ∃ t, tb.expires_at = some t ∧ now < t) :
    ∃ p, build_xoauth2_bytes (some tb) e now = .ok p := by
  rcases hexp with h | ⟨t, ht, hlt⟩
  · exact ⟨"user=" ++ pyStrip e ++ "\x01auth=Bearer "
             ++ tb.access_token ++ "\x01\x01",
      by unfold build_xoauth2_bytes; simp [htok, h]⟩
  · exact ⟨"user=" ++ pyStrip e ++ "\x01auth=Bearer "
             ++ tb.access_token ++ "\x01\x01",
      by unfold build_xoauth2_bytes
         simp [htok, ht, show ¬(t - now ≤ 0) by omega]⟩

/-- Environment of the C2 counterexample: TLS succeeds and the
introspection endpoint is unreachable. -/
def c2_env : ConnEnv :=
  { tlsOk := true, introspect := .netError,
    sasl := .okResult, login := .okResult }

/-- Fresh session of the C2 counterexample: OAuth bundle whose expiry 0 is
strictly before the clock reading 100 used below. -/
def c2_session : ImapSession :=
  { account := { id := none, email_address := "user@example.com",
                 imap_host := "imap.gmail.com" }
    token_bundle := some { access_token := "tok", expires_at := some 0 }
    password := none
    connectionOpen := false
    authenticated := false }

/-- C2 counterexample: connecting with an expired token does fail with an
authentication error, but only after opening the TLS connection — the
trace is not empty, so the no-network-call part of the claim is false. -/
theorem c2_connect_counterexample :
    (connectModel c2_env c2_session 100).2
        = Except.error ImapErr.authenticationError
    ∧ NetEvent.tlsConnect ∈ (connectModel c2_env c2_session 100).1
    ∧ ¬((connectModel c2_env c2_session 100).1 = []) := by
  refine ⟨rfl, by decide, by decide⟩

/-- C2 amended: with an OAuth bundle whose stored expiry is strictly in
the past, a connect() on a fresh session whose TLS step succeeds fails
with an Authentication error and never reaches the SASL exchange, but it
does open the TLS connection first, and, when the access token is
non-empty, it also issues the token-introspection request before the
expiry check raises. -/
theorem c2_expired_token_connect (env : ConnEnv) (st : ImapSession)
    (tb : TokenBundle) (t now : Int)
    (hfresh : st.authenticated = false)
    (htb : st.token_bundle = some tb)
    (hexp : tb.expires_at = some t) (ht : t < now)
    (htls : env.tlsOk = true) :
    (connectModel env st now).2 = .error .authenticationError
    ∧ NetEvent.saslExchange ∉ (connectModel env st now).1
    ∧ NetEvent.tlsConnect ∈ (connectModel env st now).1
    ∧ (tb.access_token ≠ "" →
        NetEvent.introspectCall ∈ (connectModel env st now).1) := by
  have hb := build_xoauth2_expired tb st.account.email_address t now hexp ht
  unfold connectModel
  simp only [hfresh, Bool.and_false, htls, htb, hb]
  by_cases ha : tb.access_token = ""
  · simp [ha]
  · by_cases hi : introAborts env.introspect = true
    · simp [ha, hi]
    · simp [ha, hi]

/-- C2 amended witness: the amended statement at the counterexample
session and clock, whose access token is non-empty, so the introspection
request is in the trace. -/
theorem c2_expired_token_connect_witness :
    (connectModel c2_env c2_session 100).2 = .error .authenticationError
    ∧ NetEvent.saslExchange ∉ (connectModel c2_env c2_session 100).1
    ∧ NetEvent.tlsConnect ∈ (connectModel c2_env c2_session 100).1
    ∧ NetEvent.introspectCall ∈ (connectModel c2_env c2_session 100).1 := by
  have h := c2_expired_token_connect c2_env c2_session
    { access_token := "tok", expires_at := some 0 } 0 100
    rfl rfl rfl (by omega) rfl
  exact ⟨h.1, h.2.1, h.2.2.1, h.2.2.2 (by decide)⟩

/-- C7: the pre-authentication introspection check has exactly three
outcomes — its own transport failure (or an unreadable body) never blocks
authentication and the SASL exchange still happens; a response carrying an
error key, missing the required IMAP scope, or reporting a non-positive
expires_in aborts with an Authentication error before the SASL exchange;
any other response lets authentication proceed to the SASL exchange. -/
theorem c7_introspection_outcomes (env : ConnEnv) (st : ImapSession)
    (tb : TokenBundle) (now : Int)
    (hfresh : st.authenticated = false)
    (htb : st.token_bundle = some tb)
    (htok : tb.access_token ≠ "")
    (hexp : tb.expires_at = none ∨ ∃ t, tb.expires_at = some t ∧ now < t)
    (htls : env.tlsOk = true) :
    ((env.introspect = .netError ∨ env.introspect = .malformed) →
       NetEvent.saslExchange ∈ (connectModel env st now).1)
    ∧ (∀ info, env.introspect = .response info →
        (info.errorKey.isSome = true ∨ imapScope ∉ info.scope
          ∨ info.expires_in ≤ 0) →
        (connectModel env st now).2 = .error .authenticationError
        ∧ NetEvent.saslExchange ∉ (connectModel env st now).1)
    ∧ (∀ info, env.introspect = .response info →
        info.errorKey = none → imapScope ∈ info.scope → 0 < info.expires_in →
        NetEvent.saslExchange ∈ (connectModel env st now).1) := by
  obtain ⟨p, hp⟩ := build_xoauth2_ok tb st.account.email_address now htok hexp
  refine ⟨?_, ?_, ?_⟩
  · intro hri
    have hi : introAborts env.introspect = false := by
      rcases hri with h | h <;> simp [h, introAborts]
    unfold connectModel
    simp only [hfresh, Bool.and_false, htls, htb, hp]
    cases env.sasl <;> simp [htok, hi]
  · intro info hri habort
    have hi : introAborts env.introspect = true := by
      rw [hri]
      rcases habort with h | h | h <;> simp [introAborts, h]
    unfold connectModel
    simp [hfresh, htls, htb, htok, hi]
  · intro info hri h1 h2 h3
    have hi : introAborts env.introspect = false := by
      rw [hri]
      simp [introAborts, h1, h2]
      omega
    unfold connectModel
    simp only [hfresh, Bool.and_false, htls, htb, hp]
    cases env.sasl <;> simp [htok, hi]

/-- C7 witness: a reachable introspection endpoint answering with the
required scope and a future expiry lets the SASL exchange happen. -/
theorem c7_introspection_outcomes_witness :
    NetEvent.saslExchange ∈
      (connectModel
        { tlsOk := true,
          introspect := .response
            { errorKey := none, email_field := "user@example.com",
              scope := [imapScope], expires_in := 3600 },
          sasl := .okResult, login := .okResult }
        { c2_session with
            token_bundle := some { access_token := "tok", expires_at := none } }
        100).1 :=
  (c7_introspection_outcomes _ _
      { access_token := "tok", expires_at := none } 100
      rfl rfl (by decide) (Or.inl rfl) rfl).2.2
    { errorKey := none, email_field := "user@example.com",
      scope := [imapScope], expires_in := 3600 }
    rfl rfl (by decide) (by decide)

/-- A wrapped-and-escaped folder name ends with a double quote. -/
theorem endsWithQuote_wrap (l : List Char) :
    endsWithQuote ('"' :: (l ++ ['"'])) = true := by
  unfold endsWithQuote
  rw [show '"' :: (l ++ ['"']) = ('"' :: l) ++ ['"'] from
        (List.cons_append _ _ _).symm,
     List.getLast?_concat]
  rfl

/-- Folder-name quoting is idempotent at the character level. -/
theorem quoteFolderChars_idem (l : List Char) :
    quoteFolderChars (quoteFolderChars l) = quoteFolderChars l := by
  by_cases h0 : l = []
  · subst h0
    simp [quoteFolderChars]
  · by_cases h1 : (startsWithQuote l && endsWithQuote l) = true
    · simp [quoteFolderChars, h0, h1]
    · by_cases h2 : needsQuoting l = true
      · have hq : quoteFolderChars l = '"' :: (escQuotes l ++ ['"']) := by
          simp [quoteFolderChars, h0, h1, h2]
        have hne : ('"' :: (escQuotes l ++ ['"'])) ≠ [] := by simp
        have hs : startsWithQuote ('"' :: (escQuotes l ++ ['"'])) = true := rfl
        have he := endsWithQuote_wrap (escQuotes l)
        rw [hq]
        simp [quoteFolderChars, hne, hs, he]
      · have hq : quoteFolderChars l = l := by
          simp [quoteFolderChars, h0, h1, h2]
        rw [hq]
        exact hq

/-- C6 counterexample: a path that starts with a double quote but does not
end with one and contains a slash is passed through unchanged rather than
wrapped and escaped, and the quoted Gmail path has 18 characters, not
19 — so the claim as stated is false. -/
theorem c6_quote_counterexample :
    quote_folder_name "\"a/b" = "\"a/b"
    ∧ quote_folder_name "\"a/b"
        ≠ String.mk ('"' :: (escQuotes ("\"a/b").data ++ ['"']))
    ∧ (quote_folder_name "[Gmail]/All Mail").length = 18
    ∧ ¬((quote_folder_name "[Gmail]/All Mail").length = 19) := by
  decide

/-- C6 amended: a path that both starts and ends with a double quote is
returned unchanged; a path not of that form is wrapped in double quotes
with embedded quotes escaped exactly when it contains a space or a
bracket, or contains a slash while not starting with a double quote
(the needs_quoting condition): when the condition holds it is wrapped,
and when it fails the path passes through unchanged — in particular a
slash-containing path that starts (but does not end) with a double quote
and has no space or bracket passes through; quoting is idempotent on
every path; and the Gmail example quotes to the expected 18-character
string. -/
theorem c6_quote_behaviour :
    (∀ s : String, startsWithQuote s.data = true → endsWithQuote s.data = true →
        quote_folder_name s = s)
    ∧ (∀ s : String, (startsWithQuote s.data && endsWithQuote s.data) = false →
        needsQuoting s.data = true →
        quote_folder_name s = String.mk ('"' :: (escQuotes s.data ++ ['"'])))
    ∧ (∀ s : String, startsWithQuote s.data = true → endsWithQuote s.data = false →
        s.data.contains ' ' = false → s.data.contains '[' = false →
        s.data.contains ']' = false →
        quote_folder_name s = s)
    ∧ (∀ s : String, (startsWithQuote s.data && endsWithQuote s.data) = false →
        needsQuoting s.data = false →
        quote_folder_name s = s)
    ∧ (∀ s : String, quote_folder_name (quote_folder_name s) = quote_folder_name s)
    ∧ quote_folder_name "[Gmail]/All Mail" = "\"[Gmail]/All Mail\""
    ∧ ("\"[Gmail]/All Mail\"" : String).length = 18 := by
  refine ⟨?_, ?_, ?_, ?_, ?_, by decide, by decide⟩
  · intro s h1 h2
    have h0 : s.data ≠ [] := by
      intro h
      rw [h] at h1
      exact absurd h1 (by decide)
    have hq : quoteFolderChars s.data = s.data := by
      simp [quoteFolderChars, h0, h1, h2]
    calc quote_folder_name s = String.mk (quoteFolderChars s.data) := rfl
      _ = String.mk s.data := by rw [hq]
      _ = s := string_mk_data s
  · intro s hb hn
    have h0 : s.data ≠ [] := by
      intro h
      rw [h] at hn
      exact absurd hn (by decide)
    have hq : quoteFolderChars s.data = '"' :: (escQuotes s.data ++ ['"']) := by
      simp [quoteFolderChars, h0, hb, hn]
    calc quote_folder_name s = String.mk (quoteFolderChars s.data) := rfl
      _ = String.mk ('"' :: (escQuotes s.data ++ ['"'])) := by rw [hq]
  · intro s h1 h2 hsp hb1 hb2
    have h0 : s.data ≠ [] := by
      intro h
      rw [h] at h1
      exact absurd h1 (by decide)
    have hb : (startsWithQuote s.data && endsWithQuote s.data) = false := by
      simp [h1, h2]
    have hn : needsQuoting s.data = false := by
      unfold needsQuoting
      rw [hsp, hb1, hb2, h1]
      simp
    have hq : quoteFolderChars s.data = s.data := by
      simp [quoteFolderChars, h0, hb, hn]
    calc quote_folder_name s = String.mk (quoteFolderChars s.data) := rfl
      _ = String.mk s.data := by rw [hq]
      _ = s := string_mk_data s
  · intro s hb hn
    by_cases h0 : s.data = []
    · calc quote_folder_name s = String.mk (quoteFolderChars s.data) := rfl
        _ = String.mk s.data := by rw [h0]; rfl
        _ = s := string_mk_data s
    · have hq : quoteFolderChars s.data = s.data := by
        simp [quoteFolderChars, h0, hb, hn]
      calc quote_folder_name s = String.mk (quoteFolderChars s.data) := rfl
        _ = String.mk s.data := by rw [hq]
        _ = s := string_mk_data s
  · intro s
    exact congrArg String.mk (quoteFolderChars_idem s.data)

/-- C6 witness: the amended quoting rule applied to the folder name
Sent Mail. -/
theorem c6_quote_behaviour_witness :
    quote_folder_name "Sent Mail"
      = String.mk ('"' :: (escQuotes ("Sent Mail").data ++ ['"'])) :=
  c6_quote_behaviour.2.1 "Sent Mail" (by decide) (by decide)

/-- Session used to exhibit the close() gap: connection open but not
authenticated. -/
def c9_half_open : ImapSession :=
  { account := { id := none, email_address := "user@example.com",
                 imap_host := "imap.gmail.com" }
    token_bundle := none
    password := none
    connectionOpen := true
    authenticated := false }

/-- C9 counterexample: on a connected-but-unauthenticated session, close()
leaves the connection reference set, so it does not clear connection state
in every starting state as the claim says. -/
theorem c9_close_counterexample :
    (closeModel true c9_half_open).connectionOpen = true
    ∧ ¬((closeModel true c9_half_open).connectionOpen = false) := by
  decide

/-- C9 amended: close() never propagates a logout error (its outcome does
not depend on whether logout raises); when the session is connected and
authenticated it unconditionally clears the connection state; in every
other starting state — including connected-but-unauthenticated — it
leaves the session unchanged. -/
theorem c9_close_behaviour (b b2 : Bool) (s : ImapSession) :
    closeModel b s = closeModel b2 s
    ∧ (s.connectionOpen = true → s.authenticated = true →
        (closeModel b s).connectionOpen = false
        ∧ (closeModel b s).authenticated = false)
    ∧ (¬(s.connectionOpen = true ∧ s.authenticated = true) →
        closeModel b s = s) := by
  refine ⟨rfl, ?_, ?_⟩
  · intro h1 h2
    simp [closeModel, h1, h2]
  · intro h
    have hb : (s.connectionOpen && s.authenticated) = false := by
      rcases Bool.eq_false_or_eq_true s.connectionOpen with hc | hc <;>
        rcases Bool.eq_false_or_eq_true s.authenticated with ha | ha <;>
          simp [hc, ha] at h ⊢
    simp [closeModel, hb]

/-- C9 witness: closing a Ready session whose logout raises still clears
the connection state. -/
theorem c9_close_behaviour_witness :
    (closeModel true { c9_half_open with authenticated := true }).connectionOpen
        = false
    ∧ (closeModel true { c9_half_open with authenticated := true }).authenticated
        = false :=
  (c9_close_behaviour true false { c9_half_open with authenticated := true }).2.1
    rfl rfl

/-- C8: every folder-list line with at least one quoted string parses to a
Folder whose server path is the rightmost quoted token after best-effort
header decoding (falling back to the raw token — the decoder dec is
arbitrary, including one that always fails); a line with no quoted string
parses to none; and an unparseable line is silently dropped from
list_folders without affecting the other lines. -/
theorem c8_folder_list_parsing (dec : String → Option String)
    (accountId : Nat) :
    (∀ line : String, ∀ q : List Char,
        (findQuoted line.data).getLast? = some q →
        ∃ fo, parse_folder_list_item dec accountId line = some fo
          ∧ fo.server_path = (dec (String.mk q)).getD (String.mk q))
    ∧ (∀ line : String, (findQuoted line.data).getLast? = none →
        parse_folder_list_item dec accountId line = none)
    ∧ (∀ pre post : List String, ∀ bad : String,
        parse_folder_list_item dec accountId bad = none →
        list_folders_model dec accountId (pre ++ bad :: post)
          = list_folders_model dec accountId (pre ++ post)) := by
  refine ⟨?_, ?_, ?_⟩
  · intro line q hq
    unfold parse_folder_list_item
    rw [hq]
    exact ⟨_, rfl, rfl⟩
  · intro line h
    unfold parse_folder_list_item
    rw [h]
  · intro pre post bad h
    unfold list_folders_model
    rw [List.filterMap_append, List.filterMap_append,
        List.filterMap_cons_none h]

/-- C8 witness: a typical LIST line parses to the INBOX folder whose path
is the last quoted token, under a decoder that always fails. -/
theorem c8_folder_list_parsing_witness :
    ∃ fo, parse_folder_list_item (fun _ => (none : Option String)) 0
        "(\\HasNoChildren) \"/\" \"INBOX\"" = some fo
      ∧ fo.server_path =
          (((fun _ => (none : Option String)) (String.mk ("INBOX".data))).getD
            (String.mk ("INBOX".data))) :=
  (c8_folder_list_parsing (fun _ => (none : Option String)) 0).1
    "(\\HasNoChildren) \"/\" \"INBOX\"" ("INBOX".data) (by decide)

/-- Fields of a message produced by the batch extraction: the UID is the
one parsed from the metadata, the flags are the parsed flag set and the
read bit is exactly the membership of the Seen flag. -/
theorem extract_batch_fields (lib : MailLib) (a f : Nat) (meta : String)
    (mm : MailMsg) (n : Nat) (h : findUid meta = some n) :
    ∃ msg, extract_batch_item lib a f (meta, mm) = some msg
      ∧ msg.uid_on_server = n
      ∧ msg.flags = parse_flags meta
      ∧ msg.is_read = decide ("\\Seen" ∈ parse_flags meta) := by
  simp only [extract_batch_item, h]
  exact ⟨_, rfl, rfl, rfl, rfl⟩

/-- Fields of a message produced by the single-UID fetch: the UID is the
requested one, the flags are the parsed flag set and the read bit is the
membership of the Seen flag. -/
theorem individual_fetch_fields (lib : MailLib) (a f uid : Nat)
    (meta : String) (mm : MailMsg) :
    ∃ msg, fetch_message_headers lib a f uid (.item meta mm) = some msg
      ∧ msg.uid_on_server = uid
      ∧ msg.flags = parse_flags meta
      ∧ msg.is_read = decide ("\\Seen" ∈ parse_flags meta) :=
  ⟨_, rfl, rfl, rfl, rfl⟩

/-- The two per-message extraction code paths agree whenever the response
metadata names the UID that the individual path was asked for. -/
theorem extract_eq_individual (lib : MailLib) (a f : Nat) (meta : String)
    (mm : MailMsg) (n : Nat) (hfind : findUid meta = some n) :
    extract_batch_item lib a f (meta, mm)
      = fetch_message_headers lib a f n (.item meta mm) := by
  simp only [extract_batch_item, fetch_message_headers, hfind]

/-- Element-wise agreement of the batch parse and the fallback loop over
a whole UID token list, for a well-formed server. -/
theorem batch_vs_fallback_list (lib : MailLib) (a f : Nat)
    (mailbox : Nat → String × MailMsg) (server : Nat → UidFetchResp) :
    ∀ l : List String,
      (∀ u ∈ l,
        pyInt? u = some (pyIntD u)
        ∧ findUid ((mailbox (pyIntD u)).1) = some (pyIntD u)
        ∧ server (pyIntD u)
            = .item ((mailbox (pyIntD u)).1) ((mailbox (pyIntD u)).2)) →
      (l.map (fun us => mailbox (pyIntD us))).filterMap
          (extract_batch_item lib a f)
        = fallback_individual_fetch lib a f server l := by
  intro l
  induction l with
  | nil => intro _; rfl
  | cons u rest ih =>
    intro h
    obtain ⟨h1, h2, h3⟩ := h u (List.mem_cons_self u rest)
    have hrest : ∀ v ∈ rest,
        pyInt? v = some (pyIntD v)
        ∧ findUid ((mailbox (pyIntD v)).1) = some (pyIntD v)
        ∧ server (pyIntD v)
            = .item ((mailbox (pyIntD v)).1) ((mailbox (pyIntD v)).2) :=
      fun v hv => h v (List.mem_cons_of_mem u hv)
    have ihr := ih hrest
    have hhead : extract_batch_item lib a f (mailbox (pyIntD u))
        = fetch_message_headers lib a f (pyIntD u) (server (pyIntD u)) := by
      rw [h3]
      exact extract_eq_individual lib a f ((mailbox (pyIntD u)).1)
        ((mailbox (pyIntD u)).2) (pyIntD u) h2
    simp only [fallback_individual_fetch] at ihr ⊢
    simp only [List.map_cons, List.filterMap_cons, h1, hhead, ihr]

/-- C5: for an identical underlying mailbox state whose responses are
well-formed, parsing the combined batch response yields exactly the same
message list as the per-UID fallback path; moreover a UID token that fails
integer conversion, or a UID whose individual fetch fails, is skipped by
the fallback without affecting the other messages. -/
theorem c5_fallback_equivalence (lib : MailLib) (a f : Nat)
    (mailbox : Nat → String × MailMsg) (server : Nat → UidFetchResp)
    (uid_list : List String)
    (hwf : ∀ u ∈ uid_list,
        pyInt? u = some (pyIntD u)
        ∧ findUid ((mailbox (pyIntD u)).1) = some (pyIntD u)
        ∧ server (pyIntD u)
            = .item ((mailbox (pyIntD u)).1) ((mailbox (pyIntD u)).2)) :
    fetch_message_headers_batch lib a f uid_list
        (.items (uid_list.map (fun us => mailbox (pyIntD us)))) server
      = fetch_message_headers_batch lib a f uid_list .badStatus server
    ∧ (∀ pre post : List String, ∀ u : String, pyInt? u = none →
        fallback_individual_fetch lib a f server (pre ++ u :: post)
          = fallback_individual_fetch lib a f server (pre ++ post))
    ∧ (∀ pre post : List String, ∀ u : String, ∀ n : Nat,
        pyInt? u = some n → server n = .failure →
        fallback_individual_fetch lib a f server (pre ++ u :: post)
          = fallback_individual_fetch lib a f server (pre ++ post)) := by
  refine ⟨?_, ?_, ?_⟩
  · cases uid_list with
    | nil => rfl
    | cons u rest =>
      have hb := batch_vs_fallback_list lib a f mailbox server (u :: rest) hwf
      simp only [fetch_message_headers_batch, List.isEmpty_cons]
      exact hb
  · intro pre post u hu
    simp only [fallback_individual_fetch, List.filterMap_append,
      List.filterMap_cons, hu]
  · intro pre post u n h1 h2
    simp only [fallback_individual_fetch, List.filterMap_append,
      List.filterMap_cons, h1, h2, fetch_message_headers]

/-- Library instantiation used by the concrete witnesses: header decoding
always fails (so the raw value is kept), parseaddr returns the input as
the address part, dates never parse. -/
def wit_lib : MailLib :=
  { decodeHeaderRaw := fun _ => none
    parseaddr := fun s => ("", s)
    parsedate := fun _ => none }

/-- Header block used by the concrete witnesses. -/
def wit_msg : MailMsg :=
  { subject := "Hello"
    from_hdr := "alice@example.com"
    to_hdr := "bob@example.com"
    date_hdr := none
    has_content_disposition := false
    content_type := "text/plain" }

/-- Mailbox with a single message of UID 7 used by the C5 witness. -/
def c5_mailbox (_ : Nat) : String × MailMsg :=
  ("1 (UID 7 FLAGS (\\Seen))", wit_msg)

/-- Well-formed single-UID responses for the C5 witness mailbox. -/
def c5_server (n : Nat) : UidFetchResp :=
  .item (c5_mailbox n).1 (c5_mailbox n).2

/-- C5 witness: on a one-message mailbox the well-formed batch parse and
the fallback path return the same messages. -/
theorem c5_fallback_equivalence_witness :
    fetch_message_headers_batch wit_lib 0 0 ["7"]
        (.items (["7"].map (fun us => c5_mailbox (pyIntD us)))) c5_server
      = fetch_message_headers_batch wit_lib 0 0 ["7"] .badStatus c5_server :=
  (c5_fallback_equivalence wit_lib 0 0 c5_mailbox c5_server ["7"]
    (by decide)).1

/-- The message list parsed from a well-formed batch response carries
exactly the requested UIDs, in request order. -/
theorem batch_filterMap_map_uid (lib : MailLib) (a f : Nat)
    (mailbox : Nat → String × MailMsg) :
    ∀ l : List String,
      (∀ u ∈ l, findUid ((mailbox (pyIntD u)).1) = some (pyIntD u)) →
      ((l.map (fun us => mailbox (pyIntD us))).filterMap
          (extract_batch_item lib a f)).map (fun m => m.uid_on_server)
        = l.map pyIntD := by
  intro l
  induction l with
  | nil => intro _; rfl
  | cons u rest ih =>
    intro h
    obtain ⟨msg, hmsg, huid, _, _⟩ :=
      extract_batch_fields lib a f ((mailbox (pyIntD u)).1)
        ((mailbox (pyIntD u)).2) (pyIntD u) (h u (List.mem_cons_self u rest))
    rw [Prod.mk.eta] at hmsg
    have ihr := ih (fun v hv => h v (List.mem_cons_of_mem u hv))
    simp only [List.map_cons, List.filterMap_cons, hmsg, huid, ihr]

/-- C3: with an ascending non-empty UID list and a limit of at least one,
fetch_headers requests exactly the trailing limit-many UID tokens (older
UIDs are never fetched), returns exactly the messages of those UIDs in
reverse (newest-first) request order, hence at most min of limit and the
folder size messages, in strictly descending UID order. -/
theorem c3_fetch_headers_limit (lib : MailLib) (a f : Nat)
    (uids : List String) (limit : Nat) (mailbox : Nat → String × MailMsg)
    (bd : List String → BatchData) (server : Nat → UidFetchResp)
    (hne : uids ≠ []) (hlim : 1 ≤ limit)
    (hasc : List.Chain' (· < ·) (uids.map pyIntD))
    (hwf : ∀ u ∈ uids, findUid ((mailbox (pyIntD u)).1) = some (pyIntD u))
    (hbd : bd (if uids.length > limit then pyTailSlice uids limit else uids)
        = .items ((if uids.length > limit then pyTailSlice uids limit
                    else uids).map (fun us => mailbox (pyIntD us)))) :
    (fetch_headers_model lib a f uids limit bd server).1
        = (if uids.length > limit then pyTailSlice uids limit else uids)
    ∧ ((fetch_headers_model lib a f uids limit bd server).2).map
          (fun m => m.uid_on_server)
        = ((if uids.length > limit then pyTailSlice uids limit
             else uids).map pyIntD).reverse
    ∧ ((fetch_headers_model lib a f uids limit bd server).2).length
        = min limit uids.length
    ∧ List.Chain' (· > ·)
        (((fetch_headers_model lib a f uids limit bd server).2).map
          (fun m => m.uid_on_server)) := by
  have hemp : uids.isEmpty = false := by
    cases uids with
    | nil => exact absurd rfl hne
    | cons x xs => rfl
  set req := if uids.length > limit then pyTailSlice uids limit else uids
    with hreq
  have hrlen : req.length = min limit uids.length := by
    rw [hreq]
    by_cases hgt : uids.length > limit
    · rw [if_pos hgt]
      unfold pyTailSlice
      rw [if_neg (by omega : ¬ limit = 0), List.length_drop]
      omega
    · rw [if_neg hgt]
      omega
  have hsub : ∀ u ∈ req, u ∈ uids := by
    intro u hu
    rw [hreq] at hu
    by_cases hgt : uids.length > limit
    · rw [if_pos hgt] at hu
      unfold pyTailSlice at hu
      rw [if_neg (by omega : ¬ limit = 0)] at hu
      exact List.mem_of_mem_drop hu
    · rwa [if_neg hgt] at hu
  have hreqne : req ≠ [] := by
    apply List.ne_nil_of_length_pos
    rw [hrlen]
    have h1 : 0 < uids.length := List.length_pos.mpr hne
    omega
  have hrempty : req.isEmpty = false := by
    cases hr : req with
    | nil => exact absurd hr hreqne
    | cons x xs => rfl
  have hchain : List.Chain' (· < ·) (req.map pyIntD) := by
    rw [hreq]
    by_cases hgt : uids.length > limit
    · rw [if_pos hgt]
      unfold pyTailSlice
      rw [if_neg (by omega : ¬ limit = 0), List.map_drop]
      exact hasc.suffix (List.drop_suffix _ _)
    · rw [if_neg hgt]
      exact hasc
  have hout : fetch_headers_model lib a f uids limit bd server
      = (req, ((req.map (fun us => mailbox (pyIntD us))).filterMap
          (extract_batch_item lib a f)).reverse) := by
    unfold fetch_headers_model
    simp only [hemp, Bool.false_eq_true, if_false, ← hreq]
    unfold fetch_message_headers_batch
    simp only [hbd, hrempty, Bool.false_eq_true, if_false]
  have huid2 : ((fetch_headers_model lib a f uids limit bd server).2).map
      (fun m => m.uid_on_server) = (req.map pyIntD).reverse := by
    rw [hout]
    simp only [List.map_reverse]
    rw [batch_filterMap_map_uid lib a f mailbox req
      (fun u hu => hwf u (hsub u hu))]
  refine ⟨by rw [hout], huid2, ?_, ?_⟩
  · have hlen := congrArg List.length huid2
    simp only [List.length_map, List.length_reverse] at hlen
    rw [hlen, hrlen]
  · rw [huid2]
    exact List.chain'_reverse.mpr
      (List.Chain'.imp (fun x y hxy => hxy) hchain)

/-- Mailbox used by the C3 witness: three messages with UIDs 10, 11, 12
in ascending order. -/
def c3_mailbox (n : Nat) : String × MailMsg :=
  (match n with
   | 10 => "1 (UID 10 FLAGS ())"
   | 11 => "2 (UID 11 FLAGS (\\Seen))"
   | _ => "3 (UID 12 FLAGS ())",
   wit_msg)

/-- C3 witness: the INBOX scenario — UIDs 10, 11, 12 with limit 2 request
exactly the tokens 11 and 12 and return the messages with UIDs 12 then 11,
two messages, in descending order. -/
theorem c3_fetch_headers_limit_witness :
    (fetch_headers_model wit_lib 0 0 ["10", "11", "12"] 2
        (fun l => .items (l.map (fun us => c3_mailbox (pyIntD us))))
        c5_server).1 = ["11", "12"]
    ∧ ((fetch_headers_model wit_lib 0 0 ["10", "11", "12"] 2
        (fun l => .items (l.map (fun us => c3_mailbox (pyIntD us))))
        c5_server).2).map (fun m => m.uid_on_server) = [12, 11] := by
  have h := c3_fetch_headers_limit wit_lib 0 0 ["10", "11", "12"] 2 c3_mailbox
    (fun l => .items (l.map (fun us => c3_mailbox (pyIntD us)))) c5_server
    (by decide) (by decide)
    (by have hm : List.map pyIntD ["10", "11", "12"] = [10, 11, 12] := rfl
        rw [hm]
        norm_num [List.chain'_cons, List.chain'_singleton])
    (by decide) rfl
  exact ⟨h.1.trans (by rfl), (h.2.1).trans (by rfl)⟩

/-- Every match the flag scanner produces at any fuel is a nonempty run
of ASCII letters. -/
theorem flagMatchesFuel_shape :
    ∀ (n : Nat) (l : List Char),
      ∀ r ∈ flagMatchesFuel n l, r ≠ [] ∧ ∀ c ∈ r, c.isAlpha = true := by
  intro n
  induction n with
  | zero =>
    intro l r hr
    simp [flagMatchesFuel] at hr
  | succ n ih =>
    intro l r hr
    cases l with
    | nil => simp [flagMatchesFuel] at hr
    | cons c rest =>
      simp only [flagMatchesFuel] at hr
      by_cases hc : c = '\\'
      · rw [if_pos hc] at hr
        by_cases hrun : (rest.takeWhile Char.isAlpha).isEmpty
        · rw [if_pos hrun] at hr
          exact ih rest r hr
        · rw [if_neg hrun] at hr
          rcases List.mem_cons.mp hr with heq | hmem
          · subst heq
            refine ⟨?_, fun ch hch => List.mem_takeWhile_imp hch⟩
            intro hempty
            rw [hempty] at hrun
            exact hrun rfl
          · exact ih _ r hmem
      · rw [if_neg hc] at hr
        exact ih rest r hr

/-- Every match the flag scanner produces is a nonempty run of ASCII
letters. -/
theorem flagMatches_shape (l : List Char) :
    ∀ r ∈ flagMatches l, r ≠ [] ∧ ∀ c ∈ r, c.isAlpha = true :=
  flagMatchesFuel_shape l.length l

/-- Every string _parse_flags produces is a single backslash followed by
one or more ASCII letters. -/
theorem parse_flags_shape (s : String) :
    ∀ fl ∈ parse_flags s, flagShape fl = true := by
  intro fl hfl
  unfold parse_flags at hfl
  rw [List.mem_dedup] at hfl
  obtain ⟨r, hr, hfl⟩ := List.mem_map.mp hfl
  obtain ⟨hne, hall⟩ := flagMatches_shape s.data r hr
  subst hfl
  unfold flagShape
  cases r with
  | nil => exact absurd rfl hne
  | cons ch rest =>
    simp only [List.isEmpty_cons, Bool.not_false, Bool.true_and,
      List.all_eq_true]
    exact fun c hc => hall c hc

/-- A message the batch extraction accepts carries the parsed flag set of
its metadata and a read bit equal to Seen-membership. -/
theorem extract_batch_flags_of_eq (lib : MailLib) (a f : Nat)
    (x : String × MailMsg) (m : EmailMessage)
    (h : extract_batch_item lib a f x = some m) :
    m.flags = parse_flags x.1 ∧ m.is_read = decide ("\\Seen" ∈ m.flags) := by
  cases hfind : findUid x.1 with
  | none => simp [extract_batch_item, hfind] at h
  | some n =>
    simp only [extract_batch_item, hfind, Option.some.injEq] at h
    subst h
    exact ⟨rfl, rfl⟩

/-- A message the single-UID fetch accepts carries the parsed flag set of
its response metadata and a read bit equal to Seen-membership. -/
theorem individual_flags_of_eq (lib : MailLib) (a f uid : Nat)
    (resp : UidFetchResp) (m : EmailMessage)
    (h : fetch_message_headers lib a f uid resp = some m) :
    (∃ meta, m.flags = parse_flags meta)
    ∧ m.is_read = decide ("\\Seen" ∈ m.flags) := by
  cases resp with
  | failure => simp [fetch_message_headers] at h
  | item meta mm =>
    simp only [fetch_message_headers, Option.some.injEq] at h
    subst h
    exact ⟨⟨meta, rfl⟩, rfl⟩

/-- Every message of the fallback path has well-shaped flags and the
Seen-membership read bit. -/
theorem fallback_mem_fields (lib : MailLib) (a f : Nat)
    (server : Nat → UidFetchResp) (ul : List String) (m : EmailMessage)
    (hm : m ∈ fallback_individual_fetch lib a f server ul) :
    (∀ fl ∈ m.flags, flagShape fl = true)
    ∧ m.is_read = decide ("\\Seen" ∈ m.flags) := by
  unfold fallback_individual_fetch at hm
  obtain ⟨u, hu, hgu⟩ := List.mem_filterMap.mp hm
  cases hpy : pyInt? u with
  | none => simp [hpy] at hgu
  | some uid =>
    simp only [hpy] at hgu
    obtain ⟨⟨meta, hf⟩, hr⟩ :=
      individual_flags_of_eq lib a f uid (server uid) m hgu
    refine ⟨?_, hr⟩
    rw [hf]
    exact parse_flags_shape meta

/-- Every message of the batch fetch (either shape) has well-shaped flags
and the Seen-membership read bit. -/
theorem batch_mem_fields (lib : MailLib) (a f : Nat) (ul : List String)
    (bd : BatchData) (server : Nat → UidFetchResp) (m : EmailMessage)
    (hm : m ∈ fetch_message_headers_batch lib a f ul bd server) :
    (∀ fl ∈ m.flags, flagShape fl = true)
    ∧ m.is_read = decide ("\\Seen" ∈ m.flags) := by
  unfold fetch_message_headers_batch at hm
  split at hm
  · simp at hm
  · cases bd with
    | items l =>
      simp only at hm
      obtain ⟨x, hx, hex⟩ := List.mem_filterMap.mp hm
      obtain ⟨hf, hr⟩ := extract_batch_flags_of_eq lib a f x m hex
      refine ⟨?_, hr⟩
      rw [hf]
      exact parse_flags_shape x.1
    | badStatus => exact fallback_mem_fields lib a f server ul m hm
    | exn => exact fallback_mem_fields lib a f server ul m hm

/-- C10: every message fetch_headers returns — through the batch path or
the per-UID fallback — has raw flags that are each a single backslash
followed by one or more ASCII letters, and its is_read field is true
exactly when the Seen flag is an element of its flag set. -/
theorem c10_flag_invariants (lib : MailLib) (a f : Nat)
    (uids : List String) (limit : Nat) (bd : List String → BatchData)
    (server : Nat → UidFetchResp) (m : EmailMessage)
    (hm : m ∈ (fetch_headers_model lib a f uids limit bd server).2) :
    (∀ fl ∈ m.flags, flagShape fl = true)
    ∧ m.is_read = decide ("\\Seen" ∈ m.flags) := by
  unfold fetch_headers_model at hm
  split at hm
  · simp at hm
  · simp only [List.mem_reverse] at hm
    exact batch_mem_fields lib a f _ _ server m hm

/-- The concrete message the C10 witness feeds through the pipeline. -/
def c10_msg : EmailMessage :=
  { account_id := 0
    folder_id := 0
    uid_on_server := 7
    sender := "alice@example.com"
    recipients := ["bob@example.com"]
    subject := "Hello"
    preview_text := ""
    sent_at := none
    received_at := none
    is_read := true
    has_attachments := false
    flags := ["\\Seen"] }

/-- C10 witness: the flag-shape and read-bit invariants hold of the
message fetched from the one-message witness mailbox. -/
theorem c10_flag_invariants_witness :
    (∀ fl ∈ c10_msg.flags, flagShape fl = true)
    ∧ c10_msg.is_read = decide ("\\Seen" ∈ c10_msg.flags) :=
  c10_flag_invariants wit_lib 0 0 ["7"] 5
    (fun l => .items (l.map (fun us => c5_mailbox (pyIntD us)))) c5_server
    c10_msg (by decide)

end ImapSpec
